import Mathlib

/-!
# Verification of the sweep orchestration engine

Shallow embedding of the dust-sweep backend (job queue, Solana wallet
scanner, Jupiter quote aggregator, x402 payment gate) together with
theorems settling the specification claims against it.

Conventions of the embedding:
* JavaScript numbers used as USD values / prices are modelled as rationals
  (`ℚ`); raw on-chain token amounts are modelled as `Nat` (they are
  unsigned integer amounts); epoch instants are `Nat` milliseconds.
* `T | undefined` fields are `Option T`; the JavaScript `x || default`
  idiom on strings and numbers (which also replaces the falsy values `""`
  and `0`) is modelled by the helpers `strOr` / `natOr`.
* A function that can throw is modelled with an explicit error case in its
  result type; network calls are abstracted into explicit function-valued
  parameters describing the upstream responses observed by the code.
* Process-wide stores (the BullMQ job lists, the Redis nonce keys) are
  passed explicitly as values.
-/

namespace Sweep

/-- JavaScript `s || d` for an optional string: `undefined` and the empty
string are falsy, anything else is kept. -/
def strOr (s : Option String) (d : String) : String :=
  match s with
  | some v => if v = "" then d else v
  | none => d

/-- JavaScript `n || d` for an optional number known to be a natural:
`undefined` and `0` are falsy, anything else is kept. -/
def natOr (n : Option Nat) (d : Nat) : Nat :=
  match n with
  | some v => if v = 0 then d else v
  | none => d

/-! ## Job queue module (`src/queue.ts`)

The queue module wraps BullMQ.  Queue retry policy, job payload shapes,
deterministic job ids, and the `waitForJob` event race are repository code
and are embedded directly below. -/

namespace Queue

/-- `backoff` entry of BullMQ job options. -/
structure BackoffOptions where
  type : String
  delay : Nat
deriving DecidableEq, Repr

/-- `removeOnComplete` / `removeOnFail` retention policy. -/
structure RemovePolicy where
  count : Nat
  age : Nat
deriving DecidableEq, Repr

/-- The per-queue default job options. -/
structure JobOptions where
  attempts : Nat
  backoff : BackoffOptions
  removeOnComplete : RemovePolicy
  removeOnFail : RemovePolicy
deriving DecidableEq, Repr

/-- `defaultQueueOptions.defaultJobOptions`: 3 attempts, exponential
backoff starting at 1000 ms, completed jobs kept 24 h / 1000 entries,
failed jobs kept 7 days / 5000 entries. -/
def defaultJobOptions : JobOptions :=
  { attempts := 3
    backoff := { type := "exponential", delay := 1000 }
    removeOnComplete := { count := 1000, age := 24 * 3600 }
    removeOnFail := { count := 5000, age := 7 * 24 * 3600 } }

/-- The six queue names of `QUEUE_NAMES`. -/
inductive QueueName
  | walletScan
  | priceUpdate
  | sweepExecute
  | sweepTrack
  | bridgeExecute
  | bridgeTrack
deriving DecidableEq, Repr

/-- Job options per queue, as configured in `getQueues`:
every queue starts from `defaultQueueOptions`; `sweep-execute` overrides
`attempts` to 5, `bridge-execute` overrides the backoff delay to 5000 ms,
`bridge-track` overrides `attempts` to 1.  `wallet-scan`, `price-update`
and `sweep-track` keep the defaults unchanged. -/
def queueJobOptions : QueueName → JobOptions
  | .walletScan => defaultJobOptions
  | .priceUpdate => defaultJobOptions
  | .sweepExecute => { defaultJobOptions with attempts := 5 }
  | .sweepTrack => defaultJobOptions
  | .bridgeExecute =>
      { defaultJobOptions with
        attempts := 3
        backoff := { type := "exponential", delay := 5000 } }
  | .bridgeTrack => { defaultJobOptions with attempts := 1 }

/-- `WalletScanJobData`. -/
structure WalletScanJobData where
  userId : String
  walletAddress : String
  chains : List String
  dustThreshold : Option ℚ
deriving DecidableEq, Repr

/-- `PriceUpdateJobData`. -/
structure PriceUpdateJobData where
  tokenAddress : String
  chain : String
  force : Option Bool
deriving DecidableEq, Repr

/-- One entry of `SweepExecuteJobData.tokens`. -/
structure SweepTokenRef where
  address : String
  chain : String
  amount : String
deriving DecidableEq, Repr

/-- `SweepExecuteJobData`. -/
structure SweepExecuteJobData where
  userId : String
  sweepId : String
  quoteId : String
  walletAddress : String
  signature : String
  tokens : List SweepTokenRef
  outputToken : String
  outputChain : String
  gasToken : Option String
deriving DecidableEq, Repr

/-- `SweepTrackJobData`. -/
structure SweepTrackJobData where
  sweepId : String
  txHash : String
  chain : String
  userOpHash : Option String
deriving DecidableEq, Repr

/-- `BridgeTrackJobData` (the bridge provider is kept as its name). -/
structure BridgeTrackJobData where
  planId : String
  bridgeId : String
  sourceTxHash : String
  sourceChain : String
  destinationChain : String
  provider : String
deriving DecidableEq, Repr

/-- Job id used by `addWalletScanJob`:
`scan-${data.walletAddress}-${Date.now()}` — note the wall-clock
timestamp baked into the identity. -/
def walletScanJobId (data : WalletScanJobData) (nowMs : Nat) : String :=
  "scan-" ++ data.walletAddress ++ "-" ++ toString nowMs

/-- Job id used by `addPriceUpdateJob`:
`price-${data.chain}-${data.tokenAddress.toLowerCase()}`. -/
def priceUpdateJobId (data : PriceUpdateJobData) : String :=
  "price-" ++ data.chain ++ "-" ++ data.tokenAddress.toLower

/-- Job id used by `addSweepExecuteJob`: `sweep-${data.sweepId}`. -/
def sweepExecuteJobId (data : SweepExecuteJobData) : String :=
  "sweep-" ++ data.sweepId

/-- Job id used by `addSweepTrackJob`:
`track-${data.sweepId}-${data.txHash}`. -/
def sweepTrackJobId (data : SweepTrackJobData) : String :=
  "track-" ++ data.sweepId ++ "-" ++ data.txHash

/-- Job id used by `addBridgeTrackJob`:
`bridge-track-${data.bridgeId}-${data.sourceTxHash}`. -/
def bridgeTrackJobId (data : BridgeTrackJobData) : String :=
  "bridge-track-" ++ data.bridgeId ++ "-" ++ data.sourceTxHash

/-- `addSweepTrackJob` delay option: `options?.delay ?? 5000` — start
checking after 5 seconds unless the caller supplies a delay. -/
def sweepTrackDelay (delayOption : Option Nat) : Nat :=
  delayOption.getD 5000

/-- `addBridgeTrackJob` delay option: `options?.delay ?? 10000` — start
checking after 10 seconds (bridges take longer) unless the caller
supplies a delay. -/
def bridgeTrackDelay (delayOption : Option Nat) : Nat :=
  delayOption.getD 10000

/-- A pending unit of work held by a queue, keyed by its BullMQ job id. -/
structure QueuedJob where
  jobId : String
  name : String
deriving DecidableEq, Repr

/-- Modelled from the spec: the deduplicating `Queue.add` of the BullMQ
library (the repository code only chooses the `jobId` it passes; the
library itself is not under `src/`).  Per the spec, "enqueue is idempotent
under identical identity — re-enqueuing a job with the same identity while
one is pending or in-flight must not create a second unit of work": adding
a job whose id is already pending leaves the queue unchanged. -/
def addJob (pending : List QueuedJob) (name : String) (jobId : String) :
    List QueuedJob :=
  if pending.any (fun j => j.jobId = jobId) then pending
  else pending ++ [{ jobId := jobId, name := name }]

/-- A terminal BullMQ queue event observed by `waitForJob`. -/
inductive QueueEvent
  | completed (jobId : String) (returnvalue : String)
  | failed (jobId : String) (failedReason : String)
deriving DecidableEq, Repr

/-- The job id carried by a terminal event. -/
def QueueEvent.jobId : QueueEvent → String
  | .completed j _ => j
  | .failed j _ => j

/-- A terminal event together with its arrival time (ms since the wait
started). -/
structure TimedEvent where
  time : Nat
  event : QueueEvent
deriving DecidableEq, Repr

/-- Outcome of the `waitForJob` promise. -/
inductive WaitOutcome
  | resolved (returnvalue : String)
  | rejected (message : String)
deriving DecidableEq, Repr

/-- The message of the timeout rejection:
`Job ${jobId} timed out after ${timeoutMs}ms`. -/
def timeoutMessage (jobId : String) (timeoutMs : Nat) : String :=
  "Job " ++ jobId ++ " timed out after " ++ toString timeoutMs ++ "ms"

/-- `waitForJob` over the trace of terminal events, in arrival order: the
promise settles on the first `completed`/`failed` event whose job id
matches and which arrives before the timeout fires; events for other jobs
are ignored, and events arriving at or after `timeoutMs` lose the race to
the timeout rejection. -/
def waitForJob (jobId : String) (timeoutMs : Nat) :
    List TimedEvent → WaitOutcome
  | [] => .rejected (timeoutMessage jobId timeoutMs)
  | e :: rest =>
    if e.time < timeoutMs ∧ e.event.jobId = jobId then
      match e.event with
      | .completed _ v => .resolved v
      | .failed _ r => .rejected r
    else waitForJob jobId timeoutMs rest

/-- `waitForJob` together with the pending-job state of the queues it
waits on: the function only subscribes to queue events and never touches
the jobs themselves (there is no cancellation path), so the queue state it
returns is the one it was given. -/
def waitForJobWithQueue (jobId : String) (timeoutMs : Nat)
    (trace : List TimedEvent) (pending : List QueuedJob) :
    WaitOutcome × List QueuedJob :=
  (waitForJob jobId timeoutMs trace, pending)

/-- Whether some `completed` event for the job occurs anywhere in the
trace (possibly after the timeout fired). -/
def jobCompletesInTrace (jobId : String) (trace : List TimedEvent) : Bool :=
  trace.any fun e =>
    match e.event with
    | .completed j _ => j == jobId
    | .failed _ _ => false

end Queue

/-! ## Solana wallet scanner (`src/services/wallet/chains/solana.ts`) -/

namespace Solana

/-- `price_info` of a Helius asset: the pre-computed USD value of the
whole holding. -/
structure PriceInfo where
  total_price : ℚ
deriving DecidableEq, Repr

/-- `token_info` of a Helius asset. -/
structure TokenInfo where
  balance : Nat
  decimals : Option Nat
  price_info : Option PriceInfo
deriving DecidableEq, Repr

/-- `content.metadata` of a Helius asset. -/
structure AssetMetadata where
  symbol : Option String
  name : Option String
deriving DecidableEq, Repr

/-- `content.links` of a Helius asset. -/
structure AssetLinks where
  image : Option String
deriving DecidableEq, Repr

/-- `content` of a Helius asset. -/
structure AssetContent where
  metadata : AssetMetadata
  links : Option AssetLinks
deriving DecidableEq, Repr

/-- A Helius DAS asset as used by the scanner. -/
structure HeliusAsset where
  id : String
  interface : String
  token_info : Option TokenInfo
  content : AssetContent
deriving DecidableEq, Repr

/-- The fungibility filter of `fetchTokenAccounts`: keep only
`FungibleToken` / `FungibleAsset` interfaces (NFTs are dropped). -/
def isFungible (asset : HeliusAsset) : Bool :=
  asset.interface == "FungibleToken" || asset.interface == "FungibleAsset"

/-- `fetchTokenAccounts` with the pagination collapsed: the concatenated
pages filtered down to fungible assets. -/
def fetchTokenAccounts (rawAssets : List HeliusAsset) : List HeliusAsset :=
  rawAssets.filter isFungible

/-- A `WalletToken` produced by the scanner.  `balance` keeps the raw
integer amount (stringified in the source); `balanceFormatted` is the
decimal-adjusted amount. -/
structure WalletToken where
  address : String
  symbol : String
  name : String
  decimals : Nat
  balance : Nat
  balanceFormatted : ℚ
  valueUsd : ℚ
  isDust : Bool
  logoUrl : Option String
deriving DecidableEq, Repr

/-- `tokenInfo.decimals || 0`. -/
def tokenDecimals (tokenInfo : TokenInfo) : Nat :=
  natOr tokenInfo.decimals 0

/-- `tokenInfo.balance / Math.pow(10, decimals)`. -/
def tokenBalanceFormatted (tokenInfo : TokenInfo) : ℚ :=
  (tokenInfo.balance : ℚ) / (10 : ℚ) ^ tokenDecimals tokenInfo

/-- `tokenInfo.price_info?.total_price || 0`: the Helius-provided USD
value of the holding, or 0 when absent. -/
def heliusValue (tokenInfo : TokenInfo) : ℚ :=
  match tokenInfo.price_info with
  | some p => p.total_price
  | none => 0

/-- The `valueUsd` computation of `assetToToken`: use the Helius price
when it is nonzero, otherwise fall back to the price service
(`getValidatedPrice`, abstracted as `oracle`); if the price service throws
(`oracle` returns `none`), the value stays 0. -/
def tokenValueUsd (oracle : String → Option ℚ) (assetId : String)
    (tokenInfo : TokenInfo) : ℚ :=
  if heliusValue tokenInfo = 0 then
    match oracle assetId with
    | some price => tokenBalanceFormatted tokenInfo * price
    | none => 0
  else heliusValue tokenInfo

/-- `valueUsd < DUST_THRESHOLD_USD && valueUsd > 0`.  The threshold
`DUST_THRESHOLD_USD` is imported from a types module not present under
`src/`, so it is kept as a parameter here. -/
def isDustValue (dustThresholdUsd valueUsd : ℚ) : Bool :=
  decide (valueUsd < dustThresholdUsd) && decide (0 < valueUsd)

/-- `SolanaScanner.assetToToken`: `null` when the asset has no
`token_info` or a zero balance, otherwise the decorated `WalletToken`. -/
def assetToToken (oracle : String → Option ℚ) (dustThresholdUsd : ℚ)
    (asset : HeliusAsset) : Option WalletToken :=
  match asset.token_info with
  | none => none
  | some tokenInfo =>
    if tokenInfo.balance = 0 then none
    else
      some
        { address := asset.id
          symbol := strOr asset.content.metadata.symbol "???"
          name := strOr asset.content.metadata.name "Unknown Token"
          decimals := tokenDecimals tokenInfo
          balance := tokenInfo.balance
          balanceFormatted := tokenBalanceFormatted tokenInfo
          valueUsd := tokenValueUsd oracle asset.id tokenInfo
          isDust := isDustValue dustThresholdUsd
            (tokenValueUsd oracle asset.id tokenInfo)
          logoUrl := asset.content.links.bind AssetLinks.image }

/-- `ChainBalance` returned by `scan`. -/
structure ChainBalance where
  chain : String
  address : String
  tokens : List WalletToken
  nativeBalance : Nat
  nativeValueUsd : ℚ
  totalValueUsd : ℚ
  dustValueUsd : ℚ
  dustTokenCount : Nat
  scannedAt : Nat
deriving DecidableEq, Repr

/-- `SolanaScanner.scan`: convert every fetched fungible asset with
`assetToToken`, drop the `null`s, and aggregate totals and the dust
statistics.  The network fetches are abstracted: `rawAssets` is what the
paginated `getAssetsByOwner` returned, `nativeBalance` the lamport
balance, `solPrice` the validated SOL price. -/
def scan (oracle : String → Option ℚ) (dustThresholdUsd : ℚ)
    (address : String) (rawAssets : List HeliusAsset) (nativeBalance : Nat)
    (solPrice : ℚ) (nowMs : Nat) : ChainBalance :=
  let assets := fetchTokenAccounts rawAssets
  let tokensWithNulls := assets.map (assetToToken oracle dustThresholdUsd)
  let tokens := tokensWithNulls.filterMap id
  let nativeBalanceFormatted : ℚ := (nativeBalance : ℚ) / (10 : ℚ) ^ 9
  let nativeValueUsd := nativeBalanceFormatted * solPrice
  let totalValueUsd := (tokens.map WalletToken.valueUsd).sum + nativeValueUsd
  let dustTokens := tokens.filter WalletToken.isDust
  let dustValueUsd := (dustTokens.map WalletToken.valueUsd).sum
  { chain := "solana"
    address := address
    tokens := tokens
    nativeBalance := nativeBalance
    nativeValueUsd := nativeValueUsd
    totalValueUsd := totalValueUsd
    dustValueUsd := dustValueUsd
    dustTokenCount := dustTokens.length
    scannedAt := nowMs }

end Solana

/-! ## Jupiter quote aggregator (`jupiter.ts`) -/

namespace Jupiter

/-- Decorated token side of a `DexQuote`. -/
structure TokenRef where
  address : String
  symbol : String
  decimals : Nat
deriving DecidableEq, Repr

/-- The parsed Jupiter `/quote` response (route metadata kept as the AMM
labels of the route plan; `priceImpactPct` is the parsed number). -/
structure JupiterQuoteResponse where
  inputMint : String
  inAmount : String
  outputMint : String
  outAmount : String
  otherAmountThreshold : String
  slippageBps : Int
  priceImpactPct : ℚ
  routePlan : List String
  contextSlot : Nat
deriving DecidableEq, Repr

/-- The parsed Jupiter `/swap` response. -/
structure JupiterSwapResponse where
  swapTransaction : String
  lastValidBlockHeight : Nat
deriving DecidableEq, Repr

/-- Token metadata from the Jupiter token list. -/
structure JupiterTokenInfo where
  address : String
  name : String
  symbol : String
  decimals : Nat
deriving DecidableEq, Repr

/-- `QuoteRequest` as consumed by `getQuote`. -/
structure QuoteRequest where
  chain : String
  inputToken : String
  outputToken : String
  inputAmount : String
  slippage : Option ℚ
  userAddress : String
  includeCalldata : Bool
deriving DecidableEq, Repr

/-- `DexQuote` as produced by the aggregator. -/
structure DexQuote where
  aggregator : String
  inputToken : TokenRef
  outputToken : TokenRef
  inputAmount : String
  outputAmount : String
  priceImpact : ℚ
  estimatedGas : String
  estimatedGasUsd : ℚ
  slippage : ℚ
  expiresAt : Nat
  route : List String
  calldata : Option String
deriving DecidableEq, Repr

/-- The upstream `/quote` fetch as observed by `getQuote`: `thrown` is a
fetch/network exception, `notOk` a non-2xx HTTP response (for which
`getJupiterQuote` logs and returns `null`), `ok` a parsed response. -/
inductive UpstreamQuote
  | thrown (message : String)
  | notOk (body : String)
  | ok (response : JupiterQuoteResponse)
deriving DecidableEq, Repr

/-- The upstream `/swap` fetch as observed by `getQuote`, with the same
three cases. -/
inductive UpstreamSwap
  | thrown (message : String)
  | notOk (body : String)
  | ok (response : JupiterSwapResponse)
deriving DecidableEq, Repr

/-- The external services `getQuote` talks to, abstracted as functions of
the request data it sends them. -/
structure UpstreamEnv where
  quoteFetch : String → String → String → Int → UpstreamQuote
  swapFetch : JupiterQuoteResponse → String → UpstreamSwap
  tokenInfoFetch : String → Option JupiterTokenInfo

/-- Wrapped SOL mint (`SOL_NATIVE_MINT`, also the `wsolAddress` used by
the Solana scanner for the SOL price lookup). -/
def SOL_NATIVE_MINT : String := "So11111111111111111111111111111111111111112"

/-- `JupiterAggregator.normalizeTokenAddress`: map the common native-SOL
spellings to the wrapped SOL mint. -/
def normalizeTokenAddress (address : String) : String :=
  let lowerAddress := address.toLower
  if lowerAddress == "sol" || lowerAddress == "native" ||
      address == "11111111111111111111111111111111" then
    SOL_NATIVE_MINT
  else address

/-- `JupiterAggregator.isAvailable`: only the Solana chain is served. -/
def isAvailable (chain : String) : Bool :=
  chain == "solana"

/-- `inputTokenInfo?.decimals || 9` (note `|| 9`, so a 0-decimals token
also falls back to 9, matching the JavaScript falsiness). -/
def tokenInfoDecimals (info : Option JupiterTokenInfo) : Nat :=
  natOr (info.map JupiterTokenInfo.decimals) 9

/-- `inputTokenInfo?.symbol || "UNKNOWN"`. -/
def tokenInfoSymbol (info : Option JupiterTokenInfo) : String :=
  strOr (info.map JupiterTokenInfo.symbol) "UNKNOWN"

/-- `JupiterAggregator.getQuote`.  Parameters that live in the types
module absent from `src/` are explicit: `defaultSlippage` is
`DEFAULT_SLIPPAGE` and `quoteExpirySeconds` is
`DEFAULT_QUOTE_EXPIRY_SECONDS`; `nowMs` is `Date.now()` at quote-building
time.  The entire body runs inside `try { ... } catch { return null }`, so
an upstream exception also yields `none`. -/
def getQuote (env : UpstreamEnv) (defaultSlippage : ℚ)
    (quoteExpirySeconds : Nat) (nowMs : Nat) (request : QuoteRequest) :
    Option DexQuote :=
  if isAvailable request.chain then
    let slippage := request.slippage.getD defaultSlippage
    let slippageBps : Int := Int.floor (slippage * 100)
    let inputMint := normalizeTokenAddress request.inputToken
    let outputMint := normalizeTokenAddress request.outputToken
    match env.quoteFetch inputMint outputMint request.inputAmount slippageBps with
    | .thrown _ => none
    | .notOk _ => none
    | .ok quoteResponse =>
      let inputTokenInfo := env.tokenInfoFetch inputMint
      let outputTokenInfo := env.tokenInfoFetch outputMint
      let quote : DexQuote :=
        { aggregator := "jupiter"
          inputToken :=
            { address := quoteResponse.inputMint
              symbol := tokenInfoSymbol inputTokenInfo
              decimals := tokenInfoDecimals inputTokenInfo }
          outputToken :=
            { address := quoteResponse.outputMint
              symbol := tokenInfoSymbol outputTokenInfo
              decimals := tokenInfoDecimals outputTokenInfo }
          inputAmount := quoteResponse.inAmount
          outputAmount := quoteResponse.outAmount
          priceImpact := quoteResponse.priceImpactPct * 100
          estimatedGas := "5000"
          estimatedGasUsd := 1 / 1000
          slippage := slippage
          expiresAt := nowMs / 1000 + quoteExpirySeconds
          route := quoteResponse.routePlan
          calldata := none }
      if request.includeCalldata then
        match env.swapFetch quoteResponse request.userAddress with
        | .thrown _ => none
        | .notOk _ => some quote
        | .ok swapResponse =>
            some { quote with calldata := some swapResponse.swapTransaction }
      else some quote
  else none

end Jupiter

/-! ## x402 payment gate (`src/api/middleware/x402.ts`) -/

namespace X402

/-- The transfer authorization carried in a payment payload.  The `from`
and `to` fields are renamed `fromAddress` / `toAddress` (both words are
reserved in Lean); `value` is the `BigInt`-parsed amount, `validAfter` /
`validBefore` the `parseInt`-parsed window bounds in epoch seconds. -/
structure Authorization where
  fromAddress : String
  toAddress : String
  value : Nat
  validAfter : Int
  validBefore : Int
  nonce : String
deriving DecidableEq, Repr

/-- `PaymentPayload` from the client. -/
structure PaymentPayload where
  x402Version : Nat
  scheme : String
  network : String
  signature : String
  authorization : Authorization
deriving DecidableEq, Repr

/-- `X402Config`: optional fields are the ones `DEFAULT_CONFIG` can
fill in. -/
structure X402Config where
  amountCents : Nat
  receiverAddress : String
  network : Option String
  asset : Option String
  enabled : Option Bool
  description : Option String
deriving DecidableEq, Repr

/-- A config after merging with `DEFAULT_CONFIG`. -/
structure ResolvedConfig where
  amountCents : Nat
  receiverAddress : String
  network : String
  asset : String
  enabled : Bool
  description : Option String
deriving DecidableEq, Repr

/-- `DEFAULT_CONFIG.network`: Base mainnet. -/
def DEFAULT_NETWORK : String := "eip155:8453"

/-- `DEFAULT_CONFIG.asset`: USDC on Base. -/
def DEFAULT_ASSET : String := "0x833589fCD6eDb6E08f4c7C32D4f71b54bdA02913"

/-- `const finalConfig = { ...DEFAULT_CONFIG, ...config }`: a field the
caller's config carries wins, otherwise the default applies
(`DEFAULT_CONFIG` sets `network`, `asset` and `enabled := true`). -/
def resolveConfig (config : X402Config) : ResolvedConfig :=
  { amountCents := config.amountCents
    receiverAddress := config.receiverAddress
    network := config.network.getD DEFAULT_NETWORK
    asset := config.asset.getD DEFAULT_ASSET
    enabled := config.enabled.getD true
    description := config.description }

/-- `USDC_DECIMALS`. -/
def USDC_DECIMALS : Nat := 6

/-- `centsToUsdcAmount`: `BigInt(cents) * BigInt(10 ** (USDC_DECIMALS - 2))`. -/
def centsToUsdcAmount (cents : Nat) : Nat :=
  cents * 10 ^ (USDC_DECIMALS - 2)

/-- The Redis key recording a used nonce:
`x402:nonce:${authorization.from}:${authorization.nonce}`. -/
def nonceKey (a : Authorization) : String :=
  "x402:nonce:" ++ a.fromAddress ++ ":" ++ a.nonce

/-- Result object of `verifyPayment`. -/
structure VerifyOutcome where
  valid : Bool
  error : Option String
deriving DecidableEq, Repr

/-- `verifyPayment` over an explicit store of used nonce keys (the Redis
state): the checks run in source order — receiver address, amount,
validity window, nonce replay — and only a fully valid payment records
its nonce key.  `now` is `Math.floor(Date.now() / 1000)`. -/
def verifyPayment (payment : PaymentPayload) (config : ResolvedConfig)
    (now : Int) (store : List String) : VerifyOutcome × List String :=
  let a := payment.authorization
  if a.toAddress.toLower ≠ config.receiverAddress.toLower then
    ({ valid := false, error := some "Invalid receiver address" }, store)
  else if a.value < centsToUsdcAmount config.amountCents then
    ({ valid := false, error := some "Insufficient payment amount" }, store)
  else if now < a.validAfter then
    ({ valid := false, error := some "Payment not yet valid" }, store)
  else if a.validBefore < now then
    ({ valid := false, error := some "Payment expired" }, store)
  else if nonceKey a ∈ store then
    ({ valid := false, error := some "Nonce already used" }, store)
  else
    ({ valid := true, error := none }, nonceKey a :: store)

/-- What the `x-payment` header of a request parsed to. -/
inductive RequestPayment
  | missing
  | malformed
  | payload (payment : PaymentPayload)
deriving DecidableEq, Repr

/-- How the middleware disposed of the request. -/
inductive GateOutcome
  | handlerRun (paid : Bool)
  | paymentRequired402
  | badRequest400
  | rejected402 (message : String)
deriving DecidableEq, Repr

/-- `x402Middleware`: skip everything when payments are disabled; with no
payment header answer 402 with the payment requirements; with an
unparsable header answer 400; otherwise verify the payment, rejecting
with 402 on failure and running the guarded handler on success.  Returns
the outcome together with the nonce store after the request. -/
def x402Middleware (config : X402Config) (header : RequestPayment)
    (now : Int) (store : List String) : GateOutcome × List String :=
  let finalConfig := resolveConfig config
  if finalConfig.enabled = false then (.handlerRun false, store)
  else
    match header with
    | .missing => (.paymentRequired402, store)
    | .malformed => (.badRequest400, store)
    | .payload payment =>
      let result := verifyPayment payment finalConfig now store
      if result.1.valid then (.handlerRun true, result.2)
      else
        (.rejected402 (result.1.error.getD "Payment verification failed"),
          result.2)

/-- `sweepPaymentMiddleware`: $0.10 per call, no `enabled` key (so the
default `enabled: true` applies). -/
def sweepPaymentMiddlewareConfig (receiverAddress : String) : X402Config :=
  { amountCents := 10
    receiverAddress := receiverAddress
    network := none
    asset := none
    enabled := none
    description := some "Piggy Bank sweep execution fee" }

/-- The default of `quotePaymentMiddleware`'s `enabled` parameter:
`enabled = false`. -/
def quotePaymentMiddlewareEnabledDefault : Bool := false

/-- `quotePaymentMiddleware`: $0.01 per call, with the `enabled` key set
to the given flag (the caller-facing default is
`quotePaymentMiddlewareEnabledDefault`). -/
def quotePaymentMiddlewareConfig (receiverAddress : String)
    (enabled : Bool) : X402Config :=
  { amountCents := 1
    receiverAddress := receiverAddress
    network := none
    asset := none
    enabled := some enabled
    description := some "Piggy Bank quote fee" }

end X402

/-! ## Concrete sample data

Closed inputs used to evaluate the embedded operations on explicit
values. -/

namespace Samples

/-- A wallet-scan job payload. -/
def scanJobData : Queue.WalletScanJobData :=
  { userId := "user-1"
    walletAddress := "0xAbCd"
    chains := ["base", "arbitrum"]
    dustThreshold := none }

/-- A sweep-execution job payload for sweep `s1`. -/
def execDataA : Queue.SweepExecuteJobData :=
  { userId := "user-1"
    sweepId := "s1"
    quoteId := "q1"
    walletAddress := "0xAbCd"
    signature := "0xsigA"
    tokens := [{ address := "0xT1", chain := "base", amount := "1000" }]
    outputToken := "0xUSDC"
    outputChain := "base"
    gasToken := none }

/-- The same logical sweep `s1` re-submitted with a different quote id and
signature: the business key (the sweep id) is unchanged. -/
def execDataB : Queue.SweepExecuteJobData :=
  { userId := "user-1"
    sweepId := "s1"
    quoteId := "q2"
    walletAddress := "0xAbCd"
    signature := "0xsigB"
    tokens := [{ address := "0xT1", chain := "base", amount := "1000" }]
    outputToken := "0xUSDC"
    outputChain := "base"
    gasToken := none }

/-- A price oracle with no resolvable price (`getValidatedPrice` always
throws). -/
def noOracle : String → Option ℚ := fun _ => none

/-- `token_info` of a dust-sized holding: raw balance 30 with 2 decimals,
Helius-priced at $0.30 total. -/
def dustTokenInfo : Solana.TokenInfo :=
  { balance := 30, decimals := some 2, price_info := some { total_price := 3 / 10 } }

/-- A fungible asset worth $0.30. -/
def dustAsset : Solana.HeliusAsset :=
  { id := "MintDust"
    interface := "FungibleToken"
    token_info := some dustTokenInfo
    content :=
      { metadata := { symbol := some "DST", name := some "Dust Token" }
        links := none } }

/-- The `WalletToken` the scanner produces for `dustAsset` at threshold 1. -/
def dustTokenSample : Solana.WalletToken :=
  { address := "MintDust"
    symbol := "DST"
    name := "Dust Token"
    decimals := 2
    balance := 30
    balanceFormatted := 3 / 10
    valueUsd := 3 / 10
    isDust := true
    logoUrl := none }

/-- `token_info` of a holding clearly above the dust threshold:
raw balance 1500 with 2 decimals, Helius-priced at $15 total. -/
def bigTokenInfo : Solana.TokenInfo :=
  { balance := 1500, decimals := some 2, price_info := some { total_price := 15 } }

/-- A fungible asset worth $15 (above any dust threshold of $1). -/
def bigAsset : Solana.HeliusAsset :=
  { id := "MintBig"
    interface := "FungibleToken"
    token_info := some bigTokenInfo
    content :=
      { metadata := { symbol := some "BIG", name := some "Big Token" }
        links := none } }

/-- The `WalletToken` the scanner produces for `bigAsset` at threshold 1. -/
def bigTokenSample : Solana.WalletToken :=
  { address := "MintBig"
    symbol := "BIG"
    name := "Big Token"
    decimals := 2
    balance := 1500
    balanceFormatted := 15
    valueUsd := 15
    isDust := false
    logoUrl := none }

/-- `token_info` without any Helius price. -/
def unpricedTokenInfo : Solana.TokenInfo :=
  { balance := 7, decimals := none, price_info := none }

/-- A fungible asset whose price is resolvable neither via Helius nor via
the price service. -/
def unpricedAsset : Solana.HeliusAsset :=
  { id := "MintNop"
    interface := "FungibleAsset"
    token_info := some unpricedTokenInfo
    content :=
      { metadata := { symbol := some "NOP", name := none }
        links := none } }

/-- The `WalletToken` the scanner produces for `unpricedAsset`: zero USD
value and not dust. -/
def unpricedToken : Solana.WalletToken :=
  { address := "MintNop"
    symbol := "NOP"
    name := "Unknown Token"
    decimals := 0
    balance := 7
    balanceFormatted := 7
    valueUsd := 0
    isDust := false
    logoUrl := none }

/-- `token_info` with a zero raw balance. -/
def zeroTokenInfo : Solana.TokenInfo :=
  { balance := 0, decimals := some 6, price_info := some { total_price := 2 } }

/-- An asset held with a zero balance (an emptied token account). -/
def zeroAsset : Solana.HeliusAsset :=
  { id := "MintZero"
    interface := "FungibleToken"
    token_info := some zeroTokenInfo
    content :=
      { metadata := { symbol := some "ZRO", name := some "Zero Token" }
        links := none } }

/-- The asset list of a sample wallet. -/
def sampleAssets : List Solana.HeliusAsset :=
  [dustAsset, bigAsset, unpricedAsset, zeroAsset]

/-- A full sample scan at dust threshold $1 with an unpriceable oracle. -/
def sampleScan : Solana.ChainBalance :=
  Solana.scan noOracle 1 "Wallet1" sampleAssets 0 0 1700000000000

/-- A quote request on Solana (no execution data requested). -/
def solQuoteRequest : Jupiter.QuoteRequest :=
  { chain := "solana"
    inputToken := "MintIn11"
    outputToken := "MintOut22"
    inputAmount := "1000"
    slippage := some 1
    userAddress := "UserPk"
    includeCalldata := false }

/-- An upstream environment in which the Jupiter quote API suffers a
transient network failure (every fetch throws). -/
def jupiterDownEnv : Jupiter.UpstreamEnv :=
  { quoteFetch := fun _ _ _ _ => .thrown "network timeout"
    swapFetch := fun _ _ => .thrown "network timeout"
    tokenInfoFetch := fun _ => none }

/-- A parsed Jupiter quote response. -/
def jupiterResp : Jupiter.JupiterQuoteResponse :=
  { inputMint := "MintIn11"
    inAmount := "1000"
    outputMint := "MintOut22"
    outAmount := "990"
    otherAmountThreshold := "980"
    slippageBps := 100
    priceImpactPct := 0
    routePlan := ["Orca"]
    contextSlot := 5 }

/-- A healthy upstream environment answering with `jupiterResp` (token
metadata unavailable, swap endpoint answering non-2xx). -/
def jupiterOkEnv : Jupiter.UpstreamEnv :=
  { quoteFetch := fun _ _ _ _ => .ok jupiterResp
    swapFetch := fun _ _ => .notOk ""
    tokenInfoFetch := fun _ => none }

/-- A payment authorization matching the sweep gate configured for
receiver `0xREC`: matching receiver, sufficient amount, valid window
around `now = 500`. -/
def paymentA : X402.PaymentPayload :=
  { x402Version := 1
    scheme := "exact"
    network := "eip155:8453"
    signature := "0xsig"
    authorization :=
      { fromAddress := "0xPayer"
        toAddress := "0xREC"
        value := 200000
        validAfter := 100
        validBefore := 2000000000
        nonce := "0xn1" } }

end Samples

end Sweep

/-! ## Theorems settling the claims -/

open Sweep

/-- C1 (counterexample).  The claim says the wallet-scan job id is derived
from the wallet address alone; in the code it is
`scan-${walletAddress}-${Date.now()}`, so the same logical scan enqueued
at two different instants gets two different job ids, and the queue ends
up holding two units of work. -/
theorem walletScan_jobId_not_identity_derived :
    Queue.walletScanJobId Samples.scanJobData 1000 ≠
      Queue.walletScanJobId Samples.scanJobData 1001
  ∧ (Queue.addJob
      (Queue.addJob [] "scan" (Queue.walletScanJobId Samples.scanJobData 1000))
      "scan" (Queue.walletScanJobId Samples.scanJobData 1001)).length = 2 := by
  decide

/-- C1 (amended).  Job ids are deterministic functions of the business
keys for sweep-execution (sweep id), price (chain plus lowercased token
address) and sweep-tracking (sweep id plus tx hash) jobs, and adding a job
under an already-pending id is a no-op, so re-enqueuing those kinds is
deduplicated; wallet-scan jobs are excluded, their id bakes in the
enqueue timestamp. -/
theorem enqueue_idempotent_under_identity_amended :
    (∀ d₁ d₂ : Queue.SweepExecuteJobData, d₁.sweepId = d₂.sweepId →
        Queue.sweepExecuteJobId d₁ = Queue.sweepExecuteJobId d₂)
  ∧ (∀ d₁ d₂ : Queue.PriceUpdateJobData, d₁.chain = d₂.chain →
        d₁.tokenAddress.toLower = d₂.tokenAddress.toLower →
        Queue.priceUpdateJobId d₁ = Queue.priceUpdateJobId d₂)
  ∧ (∀ d₁ d₂ : Queue.SweepTrackJobData, d₁.sweepId = d₂.sweepId →
        d₁.txHash = d₂.txHash →
        Queue.sweepTrackJobId d₁ = Queue.sweepTrackJobId d₂)
  ∧ (∀ (pending : List Queue.QueuedJob) (n₁ n₂ jobId : String),
        Queue.addJob (Queue.addJob pending n₁ jobId) n₂ jobId =
          Queue.addJob pending n₁ jobId) := by
  refine ⟨?_, ?_, ?_, ?_⟩
  · intro d₁ d₂ h
    unfold Queue.sweepExecuteJobId
    rw [h]
  · intro d₁ d₂ hc ht
    unfold Queue.priceUpdateJobId
    rw [hc, ht]
  · intro d₁ d₂ hs ht
    unfold Queue.sweepTrackJobId
    rw [hs, ht]
  · intro pending n₁ n₂ jobId
    unfold Queue.addJob
    cases hany : pending.any (fun j => decide (j.jobId = jobId)) with
    | true => simp [hany]
    | false => simp [hany, List.any_append]

/-- C1 (witness): re-submitting sweep `s1` with a fresh quote id and
signature produces the same job id, and the second enqueue leaves the
queue unchanged. -/
theorem enqueue_idempotent_under_identity_witness :
    Queue.sweepExecuteJobId Samples.execDataA = Queue.sweepExecuteJobId Samples.execDataB
  ∧ Queue.addJob
      (Queue.addJob [] "execute" (Queue.sweepExecuteJobId Samples.execDataA))
      "execute" (Queue.sweepExecuteJobId Samples.execDataA) =
      Queue.addJob [] "execute" (Queue.sweepExecuteJobId Samples.execDataA) :=
  ⟨enqueue_idempotent_under_identity_amended.1 Samples.execDataA Samples.execDataB rfl,
    enqueue_idempotent_under_identity_amended.2.2.2 [] "execute" "execute"
      (Queue.sweepExecuteJobId Samples.execDataA)⟩

/-- C2 (counterexample).  The claim says settlement-tracking jobs —
sweep-track and bridge-track alike — are configured with exactly 1
attempt; the `sweep-track` queue actually keeps the default of 3
attempts. -/
theorem sweepTrack_attempts_not_single :
    (Queue.queueJobOptions Queue.QueueName.sweepTrack).attempts = 3
  ∧ (Queue.queueJobOptions Queue.QueueName.sweepTrack).attempts ≠ 1 := by
  decide

/-- C2 (amended).  Retry policy per queue: price-update and wallet-scan
use 3 attempts with exponential backoff starting at 1000 ms;
sweep-execute uses an attempt ceiling of 5; bridge-track is single-attempt
(re-driven externally); sweep-track keeps the default 3 attempts with the
same exponential backoff. -/
theorem queue_retry_policies_amended :
    (Queue.queueJobOptions Queue.QueueName.priceUpdate).attempts = 3
  ∧ (Queue.queueJobOptions Queue.QueueName.priceUpdate).backoff =
      { type := "exponential", delay := 1000 }
  ∧ (Queue.queueJobOptions Queue.QueueName.walletScan).attempts = 3
  ∧ (Queue.queueJobOptions Queue.QueueName.walletScan).backoff =
      { type := "exponential", delay := 1000 }
  ∧ (Queue.queueJobOptions Queue.QueueName.sweepExecute).attempts = 5
  ∧ (Queue.queueJobOptions Queue.QueueName.bridgeTrack).attempts = 1
  ∧ (Queue.queueJobOptions Queue.QueueName.sweepTrack).attempts = 3
  ∧ (Queue.queueJobOptions Queue.QueueName.sweepTrack).backoff =
      { type := "exponential", delay := 1000 } := by
  decide

/-- C8 (counterexample).  The claim says every settlement-tracking job is
enqueued with a positive initial delay; both `addSweepTrackJob` and
`addBridgeTrackJob` pass through a caller-supplied delay
(`options?.delay ?? default`), so an explicit `delay: 0` yields a zero
initial delay. -/
theorem trackJob_delay_not_always_positive :
    Queue.sweepTrackDelay (some 0) = 0
  ∧ ¬0 < Queue.sweepTrackDelay (some 0)
  ∧ Queue.bridgeTrackDelay (some 0) = 0 := by
  decide

/-- C8 (amended).  A settlement-tracking job enqueued without an explicit
delay override gets a positive default initial delay — 5000 ms for a
same-chain sweep-tracking job and 10000 ms for a cross-chain
bridge-tracking job — and the bridge default is strictly longer than the
sweep default. -/
theorem trackJob_default_delays_amended :
    Queue.sweepTrackDelay none = 5000
  ∧ Queue.bridgeTrackDelay none = 10000
  ∧ 0 < Queue.sweepTrackDelay none
  ∧ 0 < Queue.bridgeTrackDelay none
  ∧ Queue.sweepTrackDelay none < Queue.bridgeTrackDelay none := by
  decide

/-- C6.  `waitForJob` semantics: (a) when no terminal event for the job
arrives before the timeout fires, the wait rejects with the timeout
message; (b) when the first matching terminal event before the timeout is
a completion, the wait resolves with the job's return value; (c) when it
is a failure, the wait rejects with the job's failure reason; (d) waiting
never mutates the pending jobs — a timed-out wait does not cancel the
underlying job, which can still complete later in the trace. -/
theorem waitForJob_semantics (jobId : String) (timeoutMs : Nat)
    (trace : List Queue.TimedEvent) (pending : List Queue.QueuedJob) :
    ((∀ e ∈ trace, e.event.jobId = jobId → timeoutMs ≤ e.time) →
      Queue.waitForJob jobId timeoutMs trace =
        .rejected (Queue.timeoutMessage jobId timeoutMs))
  ∧ (∀ (pre : List Queue.TimedEvent) (t : Nat) (v : String)
        (rest : List Queue.TimedEvent),
      trace = pre ++ { time := t, event := .completed jobId v } :: rest →
      t < timeoutMs →
      (∀ e ∈ pre, ¬(e.time < timeoutMs ∧ e.event.jobId = jobId)) →
      Queue.waitForJob jobId timeoutMs trace = .resolved v)
  ∧ (∀ (pre : List Queue.TimedEvent) (t : Nat) (r : String)
        (rest : List Queue.TimedEvent),
      trace = pre ++ { time := t, event := .failed jobId r } :: rest →
      t < timeoutMs →
      (∀ e ∈ pre, ¬(e.time < timeoutMs ∧ e.event.jobId = jobId)) →
      Queue.waitForJob jobId timeoutMs trace = .rejected r)
  ∧ (Queue.waitForJobWithQueue jobId timeoutMs trace pending).2 = pending := by
  refine ⟨?_, ?_, ?_, rfl⟩
  · intro h
    induction trace with
    | nil => rfl
    | cons e rest ih =>
      have he : ¬(e.time < timeoutMs ∧ e.event.jobId = jobId) := by
        rintro ⟨hlt, hid⟩
        exact absurd hlt (not_lt.mpr (h e (List.mem_cons_self e rest) hid))
      simp only [Queue.waitForJob]
      rw [if_neg he]
      exact ih fun x hx => h x (List.mem_cons_of_mem e hx)
  · intro pre t v rest htrace hlt hpre
    subst htrace
    induction pre with
    | nil =>
      simp only [List.nil_append, Queue.waitForJob]
      rw [if_pos ⟨hlt, rfl⟩]
    | cons p pre ih =>
      simp only [List.cons_append, Queue.waitForJob]
      rw [if_neg (hpre p (List.mem_cons_self p pre))]
      exact ih fun e he => hpre e (List.mem_cons_of_mem p he)
  · intro pre t r rest htrace hlt hpre
    subst htrace
    induction pre with
    | nil =>
      simp only [List.nil_append, Queue.waitForJob]
      rw [if_pos ⟨hlt, rfl⟩]
    | cons p pre ih =>
      simp only [List.cons_append, Queue.waitForJob]
      rw [if_neg (hpre p (List.mem_cons_self p pre))]
      exact ih fun e he => hpre e (List.mem_cons_of_mem p he)

/-- C6 (witness): with a 100 ms timeout, a job completing at 150 ms times
out with the timeout message while its completion event stays in the
trace (the job still completes); a job completing at 50 ms resolves with
its return value; a job failing at 50 ms rejects with its failure reason;
and the pending jobs are untouched by the wait. -/
theorem waitForJob_semantics_witness :
    Queue.waitForJob "track-s1-0xab" 100
        [{ time := 150, event := .completed "track-s1-0xab" "ok" }] =
      .rejected (Queue.timeoutMessage "track-s1-0xab" 100)
  ∧ Queue.jobCompletesInTrace "track-s1-0xab"
      [{ time := 150, event := .completed "track-s1-0xab" "ok" }] = true
  ∧ Queue.waitForJob "track-s1-0xab" 100
        [{ time := 50, event := .completed "track-s1-0xab" "ok" }] =
      .resolved "ok"
  ∧ Queue.waitForJob "track-s1-0xab" 100
        [{ time := 50, event := .failed "track-s1-0xab" "reverted" }] =
      .rejected "reverted"
  ∧ (Queue.waitForJobWithQueue "track-s1-0xab" 100 []
        [{ jobId := "track-s1-0xab", name := "track" }]).2 =
      [{ jobId := "track-s1-0xab", name := "track" }] := by
  refine ⟨?_, by decide, ?_, ?_, ?_⟩
  · exact (waitForJob_semantics "track-s1-0xab" 100
      [{ time := 150, event := .completed "track-s1-0xab" "ok" }] []).1
      (by decide)
  · exact (waitForJob_semantics "track-s1-0xab" 100
      [{ time := 50, event := .completed "track-s1-0xab" "ok" }] []).2.1
      [] 50 "ok" [] rfl (by decide) (by decide)
  · exact (waitForJob_semantics "track-s1-0xab" 100
      [{ time := 50, event := .failed "track-s1-0xab" "reverted" }] []).2.2.1
      [] 50 "reverted" [] rfl (by decide) (by decide)
  · exact (waitForJob_semantics "track-s1-0xab" 100 []
      [{ jobId := "track-s1-0xab", name := "track" }]).2.2.2

/-- Every token produced by `assetToToken` carries the dust flag computed
from its own `valueUsd` and has the (nonzero) raw balance of its
`token_info`. -/
theorem assetToToken_eq_some {oracle : String → Option ℚ} {T : ℚ}
    {asset : Sweep.Solana.HeliusAsset} {t : Sweep.Solana.WalletToken}
    (h : Solana.assetToToken oracle T asset = some t) :
    t.isDust = Solana.isDustValue T t.valueUsd ∧ 0 < t.balance := by
  cases hti : asset.token_info with
  | none => simp only [Solana.assetToToken, hti] at h; exact Option.noConfusion h
  | some tokenInfo =>
    simp only [Solana.assetToToken, hti] at h
    by_cases hb : tokenInfo.balance = 0
    · rw [if_pos hb] at h; exact Option.noConfusion h
    · rw [if_neg hb] at h
      cases h
      exact ⟨rfl, Nat.pos_of_ne_zero hb⟩

/-- Every token of a scan result comes from `assetToToken`. -/
theorem mem_scan_tokens {oracle : String → Option ℚ} {T : ℚ}
    {address : String} {rawAssets : List Sweep.Solana.HeliusAsset}
    {nativeBalance : Nat} {solPrice : ℚ} {nowMs : Nat}
    {t : Sweep.Solana.WalletToken}
    (h : t ∈ (Solana.scan oracle T address rawAssets nativeBalance solPrice
      nowMs).tokens) :
    ∃ asset, Solana.assetToToken oracle T asset = some t := by
  simp only [Solana.scan, List.mem_filterMap, List.mem_map, id_eq] at h
  obtain ⟨o, ⟨a, _, hao⟩, hot⟩ := h
  exact ⟨a, by rw [hao, hot]⟩

/-- The dust flag of every scanned token is equivalent to the ordering
predicate on its USD value. -/
theorem mem_scan_isDust {oracle : String → Option ℚ} {T : ℚ}
    {address : String} {rawAssets : List Sweep.Solana.HeliusAsset}
    {nativeBalance : Nat} {solPrice : ℚ} {nowMs : Nat}
    {t : Sweep.Solana.WalletToken}
    (h : t ∈ (Solana.scan oracle T address rawAssets nativeBalance solPrice
      nowMs).tokens) :
    t.isDust = (decide (0 < t.valueUsd) && decide (t.valueUsd < T)) := by
  obtain ⟨a, ha⟩ := mem_scan_tokens h
  obtain ⟨hd, _⟩ := assetToToken_eq_some ha
  rw [hd]
  unfold Solana.isDustValue
  exact Bool.and_comm _ _

/-- C3.  (a) A scanned token is flagged as dust exactly when
`0 < valueUsd < DUST_THRESHOLD_USD`; (b) the scan's `dustTokenCount`
equals the number of returned tokens satisfying that predicate, so
zero-value tokens are never counted; (c) a token whose price resolves
neither via Helius nor via the price service gets `valueUsd = 0` and is
not flagged as dust. -/
theorem scan_dust_accounting (oracle : String → Option ℚ)
    (dustThresholdUsd : ℚ) (address : String)
    (rawAssets : List Sweep.Solana.HeliusAsset) (nativeBalance : Nat)
    (solPrice : ℚ) (nowMs : Nat) :
    (∀ t ∈ (Solana.scan oracle dustThresholdUsd address rawAssets
        nativeBalance solPrice nowMs).tokens,
      t.isDust = true ↔ 0 < t.valueUsd ∧ t.valueUsd < dustThresholdUsd)
  ∧ (Solana.scan oracle dustThresholdUsd address rawAssets nativeBalance
      solPrice nowMs).dustTokenCount =
      ((Solana.scan oracle dustThresholdUsd address rawAssets nativeBalance
        solPrice nowMs).tokens.filter
        (fun t => decide (0 < t.valueUsd) &&
          decide (t.valueUsd < dustThresholdUsd))).length
  ∧ (∀ (asset : Sweep.Solana.HeliusAsset) (ti : Sweep.Solana.TokenInfo),
      asset.token_info = some ti →
      Solana.heliusValue ti = 0 →
      oracle asset.id = none →
      ∀ t, Solana.assetToToken oracle dustThresholdUsd asset = some t →
        t.valueUsd = 0 ∧ t.isDust = false) := by
  refine ⟨?_, ?_, ?_⟩
  · intro t ht
    rw [mem_scan_isDust ht]
    simp [Bool.and_eq_true, decide_eq_true_iff]
  · have hdef : (Solana.scan oracle dustThresholdUsd address rawAssets
        nativeBalance solPrice nowMs).dustTokenCount =
        ((Solana.scan oracle dustThresholdUsd address rawAssets nativeBalance
          solPrice nowMs).tokens.filter Sweep.Solana.WalletToken.isDust).length := rfl
    rw [hdef]
    exact congrArg List.length (List.filter_congr fun t ht => mem_scan_isDust ht)
  · intro asset ti hti hhel horacle t h
    simp only [Solana.assetToToken, hti] at h
    by_cases hb : ti.balance = 0
    · rw [if_pos hb] at h; exact Option.noConfusion h
    · rw [if_neg hb] at h
      cases h
      have hval : Solana.tokenValueUsd oracle asset.id ti = 0 := by
        unfold Solana.tokenValueUsd
        rw [if_pos hhel, horacle]
      refine ⟨hval, ?_⟩
      rw [hval]
      unfold Solana.isDustValue
      simp

/-- Evaluation: the scanner turns the $0.30 asset into its expected
token. -/
theorem assetToToken_dust_eval :
    Solana.assetToToken Samples.noOracle 1 Samples.dustAsset =
      some Samples.dustTokenSample := by
  norm_num +decide [Solana.assetToToken, Samples.dustAsset, Samples.dustTokenInfo,
    Samples.dustTokenSample, Solana.tokenDecimals, Solana.tokenBalanceFormatted,
    Solana.tokenValueUsd, Solana.heliusValue, Solana.isDustValue,
    Sweep.strOr, Sweep.natOr, Samples.noOracle]

/-- Evaluation: the scanner turns the $15 asset into its expected token. -/
theorem assetToToken_big_eval :
    Solana.assetToToken Samples.noOracle 1 Samples.bigAsset =
      some Samples.bigTokenSample := by
  norm_num +decide [Solana.assetToToken, Samples.bigAsset, Samples.bigTokenInfo,
    Samples.bigTokenSample, Solana.tokenDecimals, Solana.tokenBalanceFormatted,
    Solana.tokenValueUsd, Solana.heliusValue, Solana.isDustValue,
    Sweep.strOr, Sweep.natOr, Samples.noOracle]

/-- Evaluation: the unpriceable asset yields a zero-value, non-dust
token. -/
theorem assetToToken_unpriced_eval :
    Solana.assetToToken Samples.noOracle 1 Samples.unpricedAsset =
      some Samples.unpricedToken := by
  norm_num +decide [Solana.assetToToken, Samples.unpricedAsset, Samples.unpricedTokenInfo,
    Samples.unpricedToken, Solana.tokenDecimals, Solana.tokenBalanceFormatted,
    Solana.tokenValueUsd, Solana.heliusValue, Solana.isDustValue,
    Sweep.strOr, Sweep.natOr, Samples.noOracle]

/-- Evaluation: the emptied token account is dropped. -/
theorem assetToToken_zero_eval :
    Solana.assetToToken Samples.noOracle 1 Samples.zeroAsset = none := rfl

/-- Evaluation: the sample scan returns exactly the three nonzero-balance
tokens. -/
theorem sampleScan_tokens_eval :
    Samples.sampleScan.tokens =
      [Samples.dustTokenSample, Samples.bigTokenSample, Samples.unpricedToken] := by
  have h : Samples.sampleScan.tokens =
      ((Solana.fetchTokenAccounts Samples.sampleAssets).map
        (Solana.assetToToken Samples.noOracle 1)).filterMap id := rfl
  have hf : Solana.fetchTokenAccounts Samples.sampleAssets = Samples.sampleAssets := rfl
  rw [h, hf]
  simp [Samples.sampleAssets, assetToToken_dust_eval, assetToToken_big_eval,
    assetToToken_unpriced_eval, assetToToken_zero_eval]

/-- C3 (witness): on the sample wallet — a $0.30 holding, a $15 holding,
an unpriceable holding and an emptied account, threshold $1 — the dust
flag of the $0.30 token matches the ordering predicate, the dust count
equals the filtered count, and the unpriceable token has zero value and
is not dust. -/
theorem scan_dust_accounting_witness :
    (Samples.dustTokenSample.isDust = true ↔
      0 < Samples.dustTokenSample.valueUsd ∧ Samples.dustTokenSample.valueUsd < 1)
  ∧ Samples.sampleScan.dustTokenCount =
      (Samples.sampleScan.tokens.filter
        (fun t => decide (0 < t.valueUsd) && decide (t.valueUsd < 1))).length
  ∧ (Samples.unpricedToken.valueUsd = 0 ∧ Samples.unpricedToken.isDust = false) := by
  have h := scan_dust_accounting Samples.noOracle 1 "Wallet1" Samples.sampleAssets
    0 0 1700000000000
  refine ⟨h.1 Samples.dustTokenSample ?_, h.2.1,
    h.2.2 Samples.unpricedAsset Samples.unpricedTokenInfo rfl rfl rfl
      Samples.unpricedToken assetToToken_unpriced_eval⟩
  show Samples.dustTokenSample ∈ Samples.sampleScan.tokens
  rw [sampleScan_tokens_eval]
  exact List.mem_cons_self _ _

/-- C9.  (a) An asset with no `token_info` or a zero balance is mapped to
`null` by `assetToToken`; (b) consequently every token in a scan result
has a strictly positive raw balance. -/
theorem scan_tokens_positive_balance (oracle : String → Option ℚ)
    (dustThresholdUsd : ℚ) (address : String)
    (rawAssets : List Sweep.Solana.HeliusAsset) (nativeBalance : Nat)
    (solPrice : ℚ) (nowMs : Nat) :
    (∀ asset : Sweep.Solana.HeliusAsset,
      (asset.token_info = none ∨
        ∃ ti, asset.token_info = some ti ∧ ti.balance = 0) →
      Solana.assetToToken oracle dustThresholdUsd asset = none)
  ∧ (∀ t ∈ (Solana.scan oracle dustThresholdUsd address rawAssets
      nativeBalance solPrice nowMs).tokens, 0 < t.balance) := by
  constructor
  · intro asset hnull
    rcases hnull with hnone | ⟨ti, hti, hzero⟩
    · simp only [Solana.assetToToken, hnone]
    · simp only [Solana.assetToToken, hti]
      rw [if_pos hzero]
  · intro t ht
    obtain ⟨a, ha⟩ := mem_scan_tokens ht
    exact (assetToToken_eq_some ha).2

/-- C9 (witness): the emptied token account of the sample wallet maps to
`null`, and the $0.30 token that the sample scan does return carries its
strictly positive raw balance of 30. -/
theorem scan_tokens_positive_balance_witness :
    Solana.assetToToken Samples.noOracle 1 Samples.zeroAsset = none
  ∧ 0 < Samples.dustTokenSample.balance := by
  have h := scan_tokens_positive_balance Samples.noOracle 1 "Wallet1"
    Samples.sampleAssets 0 0 1700000000000
  refine ⟨h.1 Samples.zeroAsset (Or.inr ⟨Samples.zeroTokenInfo, rfl, rfl⟩),
    h.2 Samples.dustTokenSample ?_⟩
  show Samples.dustTokenSample ∈ Samples.sampleScan.tokens
  rw [sampleScan_tokens_eval]
  exact List.mem_cons_self _ _

/-- C4 (counterexample).  The claim reserves thrown errors for transient
failures of an available adapter, so that a transient failure never
produces the `null` no-route result.  In the code the whole quote path is
wrapped in `try { ... } catch { return null }`: with the Solana chain
available, an upstream network failure (`jupiterDownEnv`, whose quote
fetch always throws) still makes `getQuote` return `null`. -/
theorem getQuote_transient_failure_yields_null :
    Jupiter.isAvailable Samples.solQuoteRequest.chain = true
  ∧ Jupiter.getQuote Samples.jupiterDownEnv 1 30 1700000000000
      Samples.solQuoteRequest = none := ⟨rfl, rfl⟩

/-- C4 (amended).  `getQuote` returns `null` when the chain is
unsupported, and also when the upstream quote fetch answers non-2xx or
throws — a transient upstream failure is caught internally and surfaces
as the same `null` no-route result, never as an error to the caller; when
the upstream answers a quote (and no execution data is requested), a
quote is returned. -/
theorem getQuote_null_semantics_amended (env : Sweep.Jupiter.UpstreamEnv)
    (defaultSlippage : ℚ) (quoteExpirySeconds nowMs : Nat)
    (request : Sweep.Jupiter.QuoteRequest) :
    (Jupiter.isAvailable request.chain = false →
      Jupiter.getQuote env defaultSlippage quoteExpirySeconds nowMs request = none)
  ∧ (∀ msg, (∀ a b c d, env.quoteFetch a b c d = .thrown msg) →
      Jupiter.getQuote env defaultSlippage quoteExpirySeconds nowMs request = none)
  ∧ (∀ body, (∀ a b c d, env.quoteFetch a b c d = .notOk body) →
      Jupiter.getQuote env defaultSlippage quoteExpirySeconds nowMs request = none)
  ∧ (∀ resp, (∀ a b c d, env.quoteFetch a b c d = .ok resp) →
      request.includeCalldata = false →
      Jupiter.isAvailable request.chain = true →
      ∃ q, Jupiter.getQuote env defaultSlippage quoteExpirySeconds nowMs request
        = some q) := by
  refine ⟨?_, ?_, ?_, ?_⟩
  · intro h
    simp [Jupiter.getQuote, h]
  · intro msg h
    simp [Jupiter.getQuote, h]
  · intro body h
    simp [Jupiter.getQuote, h]
  · intro resp h hinc hav
    simp [Jupiter.getQuote, h, hinc, hav]

/-- C4 (witness): with the upstream down the available adapter yields
`null`, and with the upstream healthy the same request yields a quote. -/
theorem getQuote_null_semantics_amended_witness :
    Jupiter.getQuote Samples.jupiterDownEnv 1 30 1700000000000
      Samples.solQuoteRequest = none
  ∧ ∃ q, Jupiter.getQuote Samples.jupiterOkEnv 1 30 1700000000000
      Samples.solQuoteRequest = some q :=
  ⟨(getQuote_null_semantics_amended Samples.jupiterDownEnv 1 30 1700000000000
      Samples.solQuoteRequest).2.1 "network timeout" (fun _ _ _ _ => rfl),
    (getQuote_null_semantics_amended Samples.jupiterOkEnv 1 30 1700000000000
      Samples.solQuoteRequest).2.2.2 Samples.jupiterResp (fun _ _ _ _ => rfl)
      rfl rfl⟩

/-- C5.  Every quote `getQuote` returns carries
`expiresAt = ⌊Date.now() / 1000⌋ + DEFAULT_QUOTE_EXPIRY_SECONDS`; whenever
that expiry constant is positive (the spec's invariant — the constant
lives in a types module absent from `src/`), the expiry is strictly after
the creation instant. -/
theorem quote_expiresAt_in_future (env : Sweep.Jupiter.UpstreamEnv)
    (defaultSlippage : ℚ) (quoteExpirySeconds nowMs : Nat)
    (request : Sweep.Jupiter.QuoteRequest) (q : Sweep.Jupiter.DexQuote)
    (hexp : 0 < quoteExpirySeconds)
    (hq : Jupiter.getQuote env defaultSlippage quoteExpirySeconds nowMs request
      = some q) :
    q.expiresAt = nowMs / 1000 + quoteExpirySeconds
  ∧ nowMs / 1000 < q.expiresAt := by
  dsimp only [Jupiter.getQuote] at hq
  split at hq
  · split at hq
    · exact Option.noConfusion hq
    · exact Option.noConfusion hq
    · split at hq
      · split at hq
        · exact Option.noConfusion hq
        · cases hq
          exact ⟨rfl, Nat.lt_add_of_pos_right hexp⟩
        · cases hq
          exact ⟨rfl, Nat.lt_add_of_pos_right hexp⟩
      · cases hq
        exact ⟨rfl, Nat.lt_add_of_pos_right hexp⟩
  · exact Option.noConfusion hq

/-- C5 (witness): the quote produced against the healthy sample upstream
at `Date.now() = 1700000000000` with a 30-second expiry expires at epoch
second 1700000030, strictly after creation. -/
theorem quote_expiresAt_in_future_witness :
    ∃ q, Jupiter.getQuote Samples.jupiterOkEnv 1 30 1700000000000
        Samples.solQuoteRequest = some q
      ∧ q.expiresAt = 1700000000000 / 1000 + 30
      ∧ 1700000000000 / 1000 < q.expiresAt := by
  cases hq : Jupiter.getQuote Samples.jupiterOkEnv 1 30 1700000000000
      Samples.solQuoteRequest with
  | none =>
    have hs : (Jupiter.getQuote Samples.jupiterOkEnv 1 30 1700000000000
        Samples.solQuoteRequest).isSome = true := rfl
    rw [hq] at hs
    exact Bool.noConfusion hs
  | some q =>
    have h2 := quote_expiresAt_in_future Samples.jupiterOkEnv 1 30
      1700000000000 Samples.solQuoteRequest q (by decide) hq
    exact ⟨q, rfl, h2.1, h2.2⟩

/-- `verifyPayment` dichotomy: either every check passes — receiver
match, sufficient amount, validity window, fresh nonce — and the payment
is valid with its nonce key recorded, or some check fails and the payment
is invalid with an error message and the store untouched. -/
theorem verifyPayment_spec (payment : Sweep.X402.PaymentPayload)
    (config : Sweep.X402.ResolvedConfig) (now : Int) (store : List String) :
    (X402.verifyPayment payment config now store =
        ({ valid := true, error := none },
          X402.nonceKey payment.authorization :: store)
      ∧ payment.authorization.toAddress.toLower = config.receiverAddress.toLower
      ∧ X402.centsToUsdcAmount config.amountCents ≤ payment.authorization.value
      ∧ payment.authorization.validAfter ≤ now
      ∧ now ≤ payment.authorization.validBefore
      ∧ X402.nonceKey payment.authorization ∉ store)
  ∨ (∃ msg, X402.verifyPayment payment config now store =
        ({ valid := false, error := some msg }, store)
      ∧ ¬(payment.authorization.toAddress.toLower = config.receiverAddress.toLower
          ∧ X402.centsToUsdcAmount config.amountCents ≤ payment.authorization.value
          ∧ payment.authorization.validAfter ≤ now
          ∧ now ≤ payment.authorization.validBefore
          ∧ X402.nonceKey payment.authorization ∉ store)) := by
  unfold X402.verifyPayment
  dsimp only
  split_ifs with h1 h2 h3 h4 h5
  · exact Or.inr ⟨"Invalid receiver address", rfl, fun hc => h1 hc.1⟩
  · exact Or.inr ⟨"Insufficient payment amount", rfl,
      fun hc => absurd hc.2.1 (not_le.mpr h2)⟩
  · exact Or.inr ⟨"Payment not yet valid", rfl,
      fun hc => absurd hc.2.2.1 (not_le.mpr h3)⟩
  · exact Or.inr ⟨"Payment expired", rfl,
      fun hc => absurd hc.2.2.2.1 (not_le.mpr h4)⟩
  · exact Or.inr ⟨"Nonce already used", rfl, fun hc => hc.2.2.2.2 h5⟩
  · exact Or.inl ⟨rfl, not_not.mp h1, not_lt.mp h2, not_lt.mp h3,
      not_lt.mp h4, h5⟩

/-- C7.  For any enabled gate configuration: (a) a payment passing every
check — receiver match, amount at least the required USDC amount, current
time inside `[validAfter, validBefore]`, unused `(payer, nonce)` key — is
admitted, the guarded handler runs, and the nonce key is recorded; (b) a
payment failing any check is rejected with a 402 before the handler runs
and the store is unchanged; (c) replaying an admitted payment, its nonce
key now recorded, is rejected with "Nonce already used"; (d) a request
with no payment header is answered 402 with the payment requirements. -/
theorem payment_gate_admission (config : Sweep.X402.X402Config)
    (payment : Sweep.X402.PaymentPayload) (now : Int) (store : List String)
    (henabled : (X402.resolveConfig config).enabled = true) :
    (payment.authorization.toAddress.toLower = config.receiverAddress.toLower →
     X402.centsToUsdcAmount config.amountCents ≤ payment.authorization.value →
     payment.authorization.validAfter ≤ now →
     now ≤ payment.authorization.validBefore →
     X402.nonceKey payment.authorization ∉ store →
      X402.x402Middleware config (.payload payment) now store =
        (.handlerRun true, X402.nonceKey payment.authorization :: store))
  ∧ (¬(payment.authorization.toAddress.toLower = config.receiverAddress.toLower
        ∧ X402.centsToUsdcAmount config.amountCents ≤ payment.authorization.value
        ∧ payment.authorization.validAfter ≤ now
        ∧ now ≤ payment.authorization.validBefore
        ∧ X402.nonceKey payment.authorization ∉ store) →
      ∃ msg, X402.x402Middleware config (.payload payment) now store =
        (.rejected402 msg, store))
  ∧ (payment.authorization.toAddress.toLower = config.receiverAddress.toLower →
     X402.centsToUsdcAmount config.amountCents ≤ payment.authorization.value →
     payment.authorization.validAfter ≤ now →
     now ≤ payment.authorization.validBefore →
      X402.x402Middleware config (.payload payment) now
          (X402.nonceKey payment.authorization :: store) =
        (.rejected402 "Nonce already used",
          X402.nonceKey payment.authorization :: store))
  ∧ X402.x402Middleware config .missing now store = (.paymentRequired402, store) := by
  have hrecv : (X402.resolveConfig config).receiverAddress = config.receiverAddress := rfl
  have hamt : (X402.resolveConfig config).amountCents = config.amountCents := rfl
  refine ⟨?_, ?_, ?_, ?_⟩
  · intro h1 h2 h3 h4 h5
    rcases verifyPayment_spec payment (X402.resolveConfig config) now store with
      ⟨heq, _⟩ | ⟨msg, heq, hneg⟩
    · simp [X402.x402Middleware, henabled, heq]
    · exact absurd ⟨h1, h2, h3, h4, h5⟩ hneg
  · intro hnot
    rcases verifyPayment_spec payment (X402.resolveConfig config) now store with
      ⟨heq, hc⟩ | ⟨msg, heq, hneg⟩
    · exact absurd hc hnot
    · refine ⟨msg, ?_⟩
      simp [X402.x402Middleware, henabled, heq]
  · intro h1 h2 h3 h4
    have hmem : X402.nonceKey payment.authorization ∈
        X402.nonceKey payment.authorization :: store := List.mem_cons_self _ _
    have hverify : X402.verifyPayment payment (X402.resolveConfig config) now
        (X402.nonceKey payment.authorization :: store) =
        ({ valid := false, error := some "Nonce already used" },
          X402.nonceKey payment.authorization :: store) := by
      have h1a : payment.authorization.toAddress.toLower =
          (X402.resolveConfig config).receiverAddress.toLower := h1
      have h2a : X402.centsToUsdcAmount (X402.resolveConfig config).amountCents ≤
          payment.authorization.value := h2
      simp only [X402.verifyPayment]
      rw [if_neg (not_not_intro h1a), if_neg (not_lt.mpr h2a),
        if_neg (not_lt.mpr h3), if_neg (not_lt.mpr h4), if_pos hmem]
    simp [X402.x402Middleware, henabled, hverify]
  · simp [X402.x402Middleware, henabled]

/-- C7 (witness): against the sweep gate for receiver `0xREC` at
`now = 500`: the sample payment (200000 USDC units ≥ the required 100000,
window `[100, 2000000000]`, fresh nonce) is admitted and its nonce key
recorded; replaying it is rejected with "Nonce already used"; a request
without a payment header is answered 402. -/
theorem payment_gate_admission_witness :
    X402.x402Middleware (X402.sweepPaymentMiddlewareConfig "0xREC")
        (.payload Samples.paymentA) 500 [] =
      (.handlerRun true, [X402.nonceKey Samples.paymentA.authorization])
  ∧ X402.x402Middleware (X402.sweepPaymentMiddlewareConfig "0xREC")
        (.payload Samples.paymentA) 500
        [X402.nonceKey Samples.paymentA.authorization] =
      (.rejected402 "Nonce already used",
        [X402.nonceKey Samples.paymentA.authorization])
  ∧ X402.x402Middleware (X402.sweepPaymentMiddlewareConfig "0xREC")
      .missing 500 [] = (.paymentRequired402, []) := by
  have h := payment_gate_admission (X402.sweepPaymentMiddlewareConfig "0xREC")
    Samples.paymentA 500 [] rfl
  exact ⟨h.1 rfl (by decide) (by decide) (by decide) (by decide),
    h.2.2.1 rfl (by decide) (by decide) (by decide),
    h.2.2.2⟩

/-- C10.  `quotePaymentMiddleware` built with its default `enabled`
argument yields a disabled gate: for every receiver address, request
header, time and nonce store the middleware lets the request through
without any payment check and never answers 402 — in contrast with the
sweep-execution middleware, whose resolved configuration is always
enabled. -/
theorem quote_gate_disabled_by_default (receiverAddress : String)
    (header : Sweep.X402.RequestPayment) (now : Int) (store : List String) :
    X402.x402Middleware
        (X402.quotePaymentMiddlewareConfig receiverAddress
          X402.quotePaymentMiddlewareEnabledDefault) header now store =
      (.handlerRun false, store)
  ∧ (X402.resolveConfig (X402.quotePaymentMiddlewareConfig receiverAddress
      X402.quotePaymentMiddlewareEnabledDefault)).enabled = false
  ∧ (X402.resolveConfig
      (X402.sweepPaymentMiddlewareConfig receiverAddress)).enabled = true :=
  ⟨rfl, rfl, rfl⟩
